import Mathlib

/-!
Verification of the Axilrod-Teller triple-interaction pruning kernel
(`AxilrodTellerForceKernel` in `multibody_kernel.h`).

Shallow embedding conventions:
* `double` values that the pruning logic manipulates are modelled as `ℚ`
  (the pruning arithmetic uses only `+`, `-`, `*`, `/`, `fabs`, `min`,
  `max`, which are exact on rationals).
* `Vector` statistics (`coordinate_sum_` and the `gradient2` accumulators)
  are modelled as `List ℚ`; `la::AddExpert(alpha, x, y)` (`y += alpha * x`)
  becomes `addExpert alpha x y`.
* A tree node is identified by a numeric id; C++ pointer equality between
  node references (`tree_nodes[1] != tree_nodes[0]`) becomes id equality.
* The mutable per-node `Statistics` records live in a `Store : ℕ → Stats`
  mapping node ids to statistics; the kernel mutates it functionally.
* The geometric bound queries (`MinDistanceSq` / `MaxDistanceSq`) and the
  closed-form gradient bounds (`EvalGradients`, which use `sqrt` over
  `double` and can produce NaN or infinity) are parameters of the
  embedding: the kernel's control flow is proved for every such oracle.
  NaN and infinity are represented explicitly by the carrier `FVal`.
-/

/-- A tree node as seen by the kernel: an identity (modelling the C++
object address used for the aliasing tests) and a point count.
Modelled from the spec: the tree type is external to the kernel source;
§3 requires only a count, an index range, a bound and a statistics
record, of which the pruning logic reads the count and the identity. -/
structure TreeNode where
  id : ℕ
  count : ℕ
deriving DecidableEq

/-- An ordered triple of (possibly aliased) tree nodes, one per slot. -/
structure NodeTriple where
  n0 : TreeNode
  n1 : TreeNode
  n2 : TreeNode
deriving DecidableEq

/-- Per-region statistics record. Modelled from the spec (§3: six running
scalar bounds split into negative/positive parts with `_e`/`_u`/`_l`
accumulators, a `coordinate_sum_` vector accumulator and an
`l1_norm_coordinate_sum_` scalar); the fields are exactly those the
kernel source reads and writes. -/
structure Stats where
  postponed_negative_gradient1_e : ℚ
  postponed_negative_gradient1_u : ℚ
  postponed_positive_gradient1_l : ℚ
  postponed_positive_gradient1_e : ℚ
  postponed_negative_gradient2_e : List ℚ
  postponed_negative_gradient2_u : List ℚ
  postponed_positive_gradient2_l : List ℚ
  postponed_positive_gradient2_e : List ℚ
  negative_gradient1_u : ℚ
  positive_gradient1_l : ℚ
  negative_gradient2_u : List ℚ
  positive_gradient2_l : List ℚ
  coordinate_sum_ : List ℚ
  l1_norm_coordinate_sum_ : ℚ

/-- The statistics store: node id to statistics record. -/
def Store : Type := ℕ → Stats

/-- `L1Norm_`: the L1 norm of a vector (sum of absolute entries). -/
def L1Norm_ (v : List ℚ) : ℚ := (v.map (fun x => |x|)).sum

/-- `la::AddExpert(a, x, y)`, i.e. `y += a * x`, entrywise. -/
def addExpert (a : ℚ) : List ℚ → List ℚ → List ℚ
  | _, [] => []
  | [], _ => []
  | x :: xs, y :: ys => (y + a * x) :: addExpert a xs ys

/-- Interval bound for one gradient component: min/max of the negative
part and min/max of the positive part. -/
structure GradBounds where
  minNeg : ℚ
  maxNeg : ℚ
  minPos : ℚ
  maxPos : ℚ
deriving DecidableEq

/-- Pointwise update to one statistics record, applied at one node id. -/
def applyAt (i : ℕ) (f : Stats → Stats) (σ : Store) : Store :=
  fun n => if n = i then f (σ n) else σ n

/-- The statistics update `Prune_` performs for one slot: `p` is the pair
count weighting the scalar accumulators, `(cA, csA, gA)` and
`(cB, csB, gB)` are the count, coordinate sum and gradient bounds of the
two other slots, in the order the source applies its two `AddExpert`
calls per vector field. -/
def slotUpdate (p cA : ℚ) (csA : List ℚ) (gA : GradBounds)
    (cB : ℚ) (csB : List ℚ) (gB : GradBounds) (s : Stats) : Stats :=
  { s with
    postponed_negative_gradient1_e := s.postponed_negative_gradient1_e +
      p * (1/2) * (gA.minNeg + gA.maxNeg + gB.minNeg + gB.maxNeg)
    postponed_negative_gradient1_u := s.postponed_negative_gradient1_u +
      p * (gA.maxNeg + gB.maxNeg)
    postponed_positive_gradient1_l := s.postponed_positive_gradient1_l +
      p * (gA.minPos + gB.minPos)
    postponed_positive_gradient1_e := s.postponed_positive_gradient1_e +
      p * (1/2) * (gA.minPos + gA.maxPos + gB.minPos + gB.maxPos)
    postponed_negative_gradient2_e :=
      addExpert (cB * ((1/2) * (gB.minNeg + gB.maxNeg))) csB
        (addExpert (cA * ((1/2) * (gA.minNeg + gA.maxNeg))) csA
          s.postponed_negative_gradient2_e)
    postponed_negative_gradient2_u :=
      addExpert (cB * gB.maxNeg) csB
        (addExpert (cA * gA.maxNeg) csA s.postponed_negative_gradient2_u)
    postponed_positive_gradient2_l :=
      addExpert (cB * gB.minPos) csB
        (addExpert (cA * gA.minPos) csA s.postponed_positive_gradient2_l)
    postponed_positive_gradient2_e :=
      addExpert (cB * ((1/2) * (gB.minPos + gB.maxPos))) csB
        (addExpert (cA * ((1/2) * (gA.minPos + gA.maxPos))) csA
          s.postponed_positive_gradient2_e) }

/-- `Prune_`, slot 0 (the i-th node): always applied; weighted by
`num_jk_pairs`, reading the j-th and k-th slots' counts and coordinate
sums (gradient components 1 and 2). -/
def pruneSlot0 (t : NodeTriple) (g1 g2 : GradBounds) (njk : ℚ)
    (σ : Store) : Store :=
  applyAt t.n0.id
    (slotUpdate njk (t.n2.count : ℚ) ((σ t.n1.id).coordinate_sum_) g1
      (t.n1.count : ℚ) ((σ t.n2.id).coordinate_sum_) g2) σ

/-- `Prune_`, slot 1 (the j-th node): applied only when the j-th node is
not the same object as the i-th node; weighted by `num_ik_pairs`
(gradient components 1 and 3). -/
def pruneSlot1 (t : NodeTriple) (g1 g3 : GradBounds) (nik : ℚ)
    (σ : Store) : Store :=
  if t.n1.id = t.n0.id then σ
  else
    applyAt t.n1.id
      (slotUpdate nik (t.n2.count : ℚ) ((σ t.n0.id).coordinate_sum_) g1
        (t.n0.count : ℚ) ((σ t.n2.id).coordinate_sum_) g3) σ

/-- `Prune_`, slot 2 (the k-th node): applied only when the k-th node is
not the same object as the j-th node; weighted by `num_ij_pairs`
(gradient components 2 and 3). -/
def pruneSlot2 (t : NodeTriple) (g2 g3 : GradBounds) (nij : ℚ)
    (σ : Store) : Store :=
  if t.n2.id = t.n1.id then σ
  else
    applyAt t.n2.id
      (slotUpdate nij (t.n1.count : ℚ) ((σ t.n0.id).coordinate_sum_) g2
        (t.n0.count : ℚ) ((σ t.n1.id).coordinate_sum_) g3) σ

/-- `Prune_`: propagate the approximated contribution into the three
slots' postponed statistics, in source order (slot 0, then guarded
slots 1 and 2). -/
def PruneNodes (t : NodeTriple) (g1 g2 g3 : GradBounds)
    (njk nik nij : ℚ) (σ : Store) : Store :=
  pruneSlot2 t g2 g3 nij (pruneSlot1 t g1 g3 nik (pruneSlot0 t g1 g2 njk σ))

/-- Slot 0's block of four comparisons in `Prunable_`
(`first_node_prunable`). -/
def prunableFirst (t : NodeTriple) (σ : Store)
    (ng1e pg1e ng2e pg2e njk r T : ℚ) : Bool :=
  decide (ng1e + ng2e ≤ r / T *
      |(σ t.n0.id).negative_gradient1_u +
        (σ t.n0.id).postponed_negative_gradient1_u|) &&
  decide (pg1e + pg2e ≤ r / T *
      ((σ t.n0.id).positive_gradient1_l +
        (σ t.n0.id).postponed_positive_gradient1_l)) &&
  decide ((t.n2.count : ℚ) * (σ t.n1.id).l1_norm_coordinate_sum_ * ng1e +
      (t.n1.count : ℚ) * (σ t.n2.id).l1_norm_coordinate_sum_ * ng2e ≤
      r * njk / T * L1Norm_ (σ t.n0.id).negative_gradient2_u) &&
  decide ((t.n2.count : ℚ) * (σ t.n1.id).l1_norm_coordinate_sum_ * pg1e +
      (t.n1.count : ℚ) * (σ t.n2.id).l1_norm_coordinate_sum_ * pg2e ≤
      r * njk / T * (L1Norm_ (σ t.n0.id).positive_gradient2_l +
        L1Norm_ (σ t.n0.id).postponed_positive_gradient2_l))

/-- Slot 1's block of four comparisons in `Prunable_`
(`second_node_prunable`, non-aliased branch). -/
def prunableSecond (t : NodeTriple) (σ : Store)
    (ng1e pg1e ng3e pg3e nik r T : ℚ) : Bool :=
  decide (ng1e + ng3e ≤ r / T *
      |(σ t.n1.id).negative_gradient1_u +
        (σ t.n1.id).postponed_negative_gradient1_u|) &&
  decide (pg1e + pg3e ≤ r / T *
      ((σ t.n1.id).positive_gradient1_l +
        (σ t.n1.id).postponed_positive_gradient1_l)) &&
  decide ((t.n2.count : ℚ) * (σ t.n0.id).l1_norm_coordinate_sum_ * ng1e +
      (t.n0.count : ℚ) * (σ t.n2.id).l1_norm_coordinate_sum_ * ng3e ≤
      r * nik / T * (L1Norm_ (σ t.n1.id).negative_gradient2_u +
        L1Norm_ (σ t.n1.id).postponed_negative_gradient2_u)) &&
  decide ((t.n2.count : ℚ) * (σ t.n0.id).l1_norm_coordinate_sum_ * pg1e +
      (t.n0.count : ℚ) * (σ t.n2.id).l1_norm_coordinate_sum_ * pg3e ≤
      r * nik / T * (L1Norm_ (σ t.n1.id).positive_gradient2_l +
        L1Norm_ (σ t.n1.id).postponed_positive_gradient2_l))

/-- Slot 2's block of four comparisons in `Prunable_`
(`third_node_prunable`, non-aliased branch). -/
def prunableThird (t : NodeTriple) (σ : Store)
    (ng2e pg2e ng3e pg3e nij r T : ℚ) : Bool :=
  decide (ng2e + ng3e ≤ r / T *
      |(σ t.n2.id).negative_gradient1_u +
        (σ t.n2.id).postponed_negative_gradient1_u|) &&
  decide (pg2e + pg3e ≤ r / T *
      ((σ t.n2.id).positive_gradient1_l +
        (σ t.n2.id).postponed_positive_gradient1_l)) &&
  decide ((t.n1.count : ℚ) * (σ t.n0.id).l1_norm_coordinate_sum_ * ng2e +
      (t.n0.count : ℚ) * (σ t.n1.id).l1_norm_coordinate_sum_ * ng3e ≤
      r * nij / T * (L1Norm_ (σ t.n2.id).negative_gradient2_u +
        L1Norm_ (σ t.n2.id).postponed_negative_gradient2_u)) &&
  decide ((t.n1.count : ℚ) * (σ t.n0.id).l1_norm_coordinate_sum_ * pg2e +
      (t.n0.count : ℚ) * (σ t.n1.id).l1_norm_coordinate_sum_ * pg3e ≤
      r * nij / T * (L1Norm_ (σ t.n2.id).positive_gradient2_l +
        L1Norm_ (σ t.n2.id).postponed_positive_gradient2_l))

/-- `Prunable_`: the 3-node tuple is prunable iff the three slot blocks
pass, with the aliasing collapse (`?:` on pointer equality) and the
short-circuit early returns of the source. -/
def Prunable_ (t : NodeTriple) (σ : Store)
    (ng1e pg1e ng2e pg2e ng3e pg3e njk nik nij r T : ℚ) : Bool :=
  let first_node_prunable := prunableFirst t σ ng1e pg1e ng2e pg2e njk r T
  if !first_node_prunable then false
  else
    let second_node_prunable :=
      if t.n1.id = t.n0.id then first_node_prunable
      else prunableSecond t σ ng1e pg1e ng3e pg3e nik r T
    if !second_node_prunable then false
    else
      let third_node_prunable :=
        if t.n2.id = t.n1.id then second_node_prunable
        else prunableThird t σ ng2e pg2e ng3e pg3e nij r T
      third_node_prunable

/-- Slot 0's block as the specification's words describe it (§4.4: every
comparison's budget is scaled by the region's own accumulated bound PLUS
the corresponding postponed accumulator). It differs from the source's
`prunableFirst` only in the third comparison, whose budget in the source
omits `L1Norm_ (postponed_negative_gradient2_u)`. -/
def prunableFirstUniform (t : NodeTriple) (σ : Store)
    (ng1e pg1e ng2e pg2e njk r T : ℚ) : Bool :=
  decide (ng1e + ng2e ≤ r / T *
      |(σ t.n0.id).negative_gradient1_u +
        (σ t.n0.id).postponed_negative_gradient1_u|) &&
  decide (pg1e + pg2e ≤ r / T *
      ((σ t.n0.id).positive_gradient1_l +
        (σ t.n0.id).postponed_positive_gradient1_l)) &&
  decide ((t.n2.count : ℚ) * (σ t.n1.id).l1_norm_coordinate_sum_ * ng1e +
      (t.n1.count : ℚ) * (σ t.n2.id).l1_norm_coordinate_sum_ * ng2e ≤
      r * njk / T * (L1Norm_ (σ t.n0.id).negative_gradient2_u +
        L1Norm_ (σ t.n0.id).postponed_negative_gradient2_u)) &&
  decide ((t.n2.count : ℚ) * (σ t.n1.id).l1_norm_coordinate_sum_ * pg1e +
      (t.n1.count : ℚ) * (σ t.n2.id).l1_norm_coordinate_sum_ * pg2e ≤
      r * njk / T * (L1Norm_ (σ t.n0.id).positive_gradient2_l +
        L1Norm_ (σ t.n0.id).postponed_positive_gradient2_l))

/-- `Prunable_` as the specification's words describe it: identical to
the source except that slot 0's negative-gradient cross-term budget also
includes the postponed accumulator. -/
def PrunableSpecUniform (t : NodeTriple) (σ : Store)
    (ng1e pg1e ng2e pg2e ng3e pg3e njk nik nij r T : ℚ) : Bool :=
  let first_node_prunable :=
    prunableFirstUniform t σ ng1e pg1e ng2e pg2e njk r T
  if !first_node_prunable then false
  else
    let second_node_prunable :=
      if t.n1.id = t.n0.id then first_node_prunable
      else prunableSecond t σ ng1e pg1e ng3e pg3e nik r T
    if !second_node_prunable then false
    else
      let third_node_prunable :=
        if t.n2.id = t.n1.id then second_node_prunable
        else prunableThird t σ ng2e pg2e ng3e pg3e nij r T
      third_node_prunable

/-- The six finite-difference component errors
(`ComputeGradientComponentError_`): half the interval width each. -/
structure GradErrors where
  negative_gradient1_error : ℚ
  positive_gradient1_error : ℚ
  negative_gradient2_error : ℚ
  positive_gradient2_error : ℚ
  negative_gradient3_error : ℚ
  positive_gradient3_error : ℚ
deriving DecidableEq

/-- `ComputeGradientComponentError_`: deterministic finite-difference
error, computed component-wise. -/
def ComputeGradientComponentError_
    (min_negative_gradient1 max_negative_gradient1
     min_positive_gradient1 max_positive_gradient1
     min_negative_gradient2 max_negative_gradient2
     min_positive_gradient2 max_positive_gradient2
     min_negative_gradient3 max_negative_gradient3
     min_positive_gradient3 max_positive_gradient3 : ℚ) : GradErrors :=
  { negative_gradient1_error :=
      (max_negative_gradient1 - min_negative_gradient1) * (1/2)
    positive_gradient1_error :=
      (max_positive_gradient1 - min_positive_gradient1) * (1/2)
    negative_gradient2_error :=
      (max_negative_gradient2 - min_negative_gradient2) * (1/2)
    positive_gradient2_error :=
      (max_positive_gradient2 - min_positive_gradient2) * (1/2)
    negative_gradient3_error :=
      (max_negative_gradient3 - min_negative_gradient3) * (1/2)
    positive_gradient3_error :=
      (max_positive_gradient3 - min_positive_gradient3) * (1/2) }

/-- The three pair counts `(num_jk_pairs, num_ik_pairs, num_ij_pairs)`. -/
structure PairCounts where
  num_jk_pairs : ℚ
  num_ik_pairs : ℚ
  num_ij_pairs : ℚ
deriving DecidableEq

/-- `ComputeNumTwoTuples_`: pair counts with the combinatorial correction
for aliased slots (`math::BinomialCoefficient(n, 2)` is `n.choose 2`). -/
def computeNumTwoTuples (t : NodeTriple) : PairCounts :=
  if t.n0.id = t.n1.id then
    if t.n1.id = t.n2.id then
      let njk : ℚ := (((t.n0.count - 1).choose 2 : ℕ) : ℚ)
      { num_jk_pairs := njk, num_ik_pairs := njk, num_ij_pairs := njk }
    else
      let njk : ℚ := (((t.n0.count - 1) * t.n2.count : ℕ) : ℚ)
      { num_jk_pairs := njk, num_ik_pairs := njk
        num_ij_pairs := ((t.n0.count.choose 2 : ℕ) : ℚ) }
  else
    if t.n1.id = t.n2.id then
      { num_jk_pairs := ((t.n1.count.choose 2 : ℕ) : ℚ)
        num_ik_pairs := ((t.n0.count * (t.n2.count - 1) : ℕ) : ℚ)
        num_ij_pairs := ((t.n0.count * (t.n1.count - 1) : ℕ) : ℚ) }
    else
      { num_jk_pairs := ((t.n1.count * t.n2.count : ℕ) : ℚ)
        num_ik_pairs := ((t.n0.count * t.n2.count : ℕ) : ℚ)
        num_ij_pairs := ((t.n0.count * t.n1.count : ℕ) : ℚ) }

/-- The pair counts the deterministic tree-node `Eval` computes inline
and passes to `Prunable_` and `Prune_`: plain products of the slot
counts. -/
def evalPairCounts (t : NodeTriple) : PairCounts :=
  { num_jk_pairs := ((t.n1.count * t.n2.count : ℕ) : ℚ)
    num_ik_pairs := ((t.n0.count * t.n2.count : ℕ) : ℚ)
    num_ij_pairs := ((t.n0.count * t.n1.count : ℕ) : ℚ) }

/-- Carrier for a `double` gradient bound: a finite rational, an
infinity, or NaN. -/
inductive FVal where
  | val : ℚ → FVal
  | posInf : FVal
  | negInf : FVal
  | nan : FVal
deriving DecidableEq

/-- `isnan`. -/
def FVal.isnan : FVal → Bool
  | .nan => true
  | _ => false

/-- `isinf`. -/
def FVal.isinf : FVal → Bool
  | .posInf => true
  | .negInf => true
  | _ => false

/-- The finite value of an `FVal` (only meaningful once the NaN/infinity
guard has passed). -/
def FVal.toQ : FVal → ℚ
  | .val q => q
  | _ => 0

/-- The pairwise squared-distance table for a node triple: `mIJ` holds
the min squared distance of pair `(I, J)` (upper triangle), `MIJ` the
max (lower triangle), as `EvalMinMaxSquaredDistances` fills it. -/
structure DistMat where
  m01 : ℚ
  M01 : ℚ
  m02 : ℚ
  M02 : ℚ
  m12 : ℚ
  M12 : ℚ
deriving DecidableEq

/-- `EvalMinMaxSquaredDistances` on tree nodes: query the bound oracles
for each unordered pair of slots. -/
def evalMinMaxSquaredDistancesNodes (dmin dmax : ℕ → ℕ → ℚ)
    (t : NodeTriple) : DistMat :=
  { m01 := dmin t.n0.id t.n1.id, M01 := dmax t.n0.id t.n1.id
    m02 := dmin t.n0.id t.n2.id, M02 := dmax t.n0.id t.n2.id
    m12 := dmin t.n1.id t.n2.id, M12 := dmax t.n1.id t.n2.id }

/-- The twelve gradient bounds produced by `EvalGradients` on a distance
table (possibly NaN or infinite, hence `FVal`). -/
structure GradOut where
  min_negative_gradient1 : FVal
  max_negative_gradient1 : FVal
  min_positive_gradient1 : FVal
  max_positive_gradient1 : FVal
  min_negative_gradient2 : FVal
  max_negative_gradient2 : FVal
  min_positive_gradient2 : FVal
  max_positive_gradient2 : FVal
  min_negative_gradient3 : FVal
  max_negative_gradient3 : FVal
  min_positive_gradient3 : FVal
  max_positive_gradient3 : FVal
deriving DecidableEq

/-- The NaN/infinity guard of the tree-node `Eval`, in source order
(twelve `isnan` tests then twelve `isinf` tests). -/
def GradOut.hasNonFinite (g : GradOut) : Bool :=
  g.min_negative_gradient1.isnan || g.max_negative_gradient1.isnan ||
  g.min_positive_gradient1.isnan || g.max_positive_gradient1.isnan ||
  g.min_negative_gradient2.isnan || g.max_negative_gradient2.isnan ||
  g.min_positive_gradient2.isnan || g.max_positive_gradient2.isnan ||
  g.min_negative_gradient3.isnan || g.max_negative_gradient3.isnan ||
  g.min_positive_gradient3.isnan || g.max_positive_gradient3.isnan ||
  g.min_negative_gradient1.isinf || g.max_negative_gradient1.isinf ||
  g.min_positive_gradient1.isinf || g.max_positive_gradient1.isinf ||
  g.min_negative_gradient2.isinf || g.max_negative_gradient2.isinf ||
  g.min_positive_gradient2.isinf || g.max_positive_gradient2.isinf ||
  g.min_negative_gradient3.isinf || g.max_negative_gradient3.isinf ||
  g.min_positive_gradient3.isinf || g.max_positive_gradient3.isinf

/-- The deterministic tree-node `Eval`: fills the distance table from
the bound oracles, refuses on a zero minimum pairwise distance, obtains
the twelve gradient bounds from the oracle `grad` (which stands for the
closed-form `EvalGradients` over `double`), refuses on NaN/infinity,
computes the finite-difference errors and the inline pair-count
products, and prunes via `Prunable_` / `Prune_`. Returns the verdict
and the resulting statistics store. -/
def evalNodes (dmin dmax : ℕ → ℕ → ℚ) (grad : DistMat → GradOut)
    (t : NodeTriple) (σ : Store) (relative_error T : ℚ) : Bool × Store :=
  let dm := evalMinMaxSquaredDistancesNodes dmin dmax t
  if dm.m01 = 0 ∨ dm.m02 = 0 ∨ dm.m12 = 0 then (false, σ)
  else
    let g := grad dm
    if g.hasNonFinite then (false, σ)
    else
      let mng1 := g.min_negative_gradient1.toQ
      let mxng1 := g.max_negative_gradient1.toQ
      let mpg1 := g.min_positive_gradient1.toQ
      let mxpg1 := g.max_positive_gradient1.toQ
      let mng2 := g.min_negative_gradient2.toQ
      let mxng2 := g.max_negative_gradient2.toQ
      let mpg2 := g.min_positive_gradient2.toQ
      let mxpg2 := g.max_positive_gradient2.toQ
      let mng3 := g.min_negative_gradient3.toQ
      let mxng3 := g.max_negative_gradient3.toQ
      let mpg3 := g.min_positive_gradient3.toQ
      let mxpg3 := g.max_positive_gradient3.toQ
      let e := ComputeGradientComponentError_ mng1 mxng1 mpg1 mxpg1
        mng2 mxng2 mpg2 mxpg2 mng3 mxng3 mpg3 mxpg3
      let pc := evalPairCounts t
      if Prunable_ t σ e.negative_gradient1_error e.positive_gradient1_error
          e.negative_gradient2_error e.positive_gradient2_error
          e.negative_gradient3_error e.positive_gradient3_error
          pc.num_jk_pairs pc.num_ik_pairs pc.num_ij_pairs
          relative_error T then
        (true, PruneNodes t ⟨mng1, mxng1, mpg1, mxpg1⟩
          ⟨mng2, mxng2, mpg2, mxpg2⟩ ⟨mng3, mxng3, mpg3, mxpg3⟩
          pc.num_jk_pairs pc.num_ik_pairs pc.num_ij_pairs σ)
      else (false, σ)

/-- The six gradient values evaluated at one concrete sampled point
triple. -/
structure GradSix where
  negative_gradient1 : ℚ
  positive_gradient1 : ℚ
  negative_gradient2 : ℚ
  positive_gradient2 : ℚ
  negative_gradient3 : ℚ
  positive_gradient3 : ℚ
deriving DecidableEq

/-- `DBL_MAX`, the largest finite `double`, used as a sentinel for the
running min/max statistics. -/
def DBL_MAX : ℚ := (2 - (1/2)^52) * 2^1023

/-- The running order statistics and the raw and squared sums that
`MonteCarloEval` maintains per gradient component. -/
structure MCAccum where
  min_negative_gradient1 : ℚ
  max_negative_gradient1 : ℚ
  min_positive_gradient1 : ℚ
  max_positive_gradient1 : ℚ
  negative_gradient1_sum : ℚ
  negative_gradient1_squared_sum : ℚ
  positive_gradient1_sum : ℚ
  positive_gradient1_squared_sum : ℚ
  min_negative_gradient2 : ℚ
  max_negative_gradient2 : ℚ
  min_positive_gradient2 : ℚ
  max_positive_gradient2 : ℚ
  negative_gradient2_sum : ℚ
  negative_gradient2_squared_sum : ℚ
  positive_gradient2_sum : ℚ
  positive_gradient2_squared_sum : ℚ
  min_negative_gradient3 : ℚ
  max_negative_gradient3 : ℚ
  min_positive_gradient3 : ℚ
  max_positive_gradient3 : ℚ
  negative_gradient3_sum : ℚ
  negative_gradient3_squared_sum : ℚ
  positive_gradient3_sum : ℚ
  positive_gradient3_squared_sum : ℚ
deriving DecidableEq

/-- The initial values of the running statistics (source lines 856-873). -/
def initMCAccum : MCAccum :=
  { min_negative_gradient1 := 0, max_negative_gradient1 := -DBL_MAX
    min_positive_gradient1 := DBL_MAX, max_positive_gradient1 := 0
    negative_gradient1_sum := 0, negative_gradient1_squared_sum := 0
    positive_gradient1_sum := 0, positive_gradient1_squared_sum := 0
    min_negative_gradient2 := 0, max_negative_gradient2 := -DBL_MAX
    min_positive_gradient2 := DBL_MAX, max_positive_gradient2 := 0
    negative_gradient2_sum := 0, negative_gradient2_squared_sum := 0
    positive_gradient2_sum := 0, positive_gradient2_squared_sum := 0
    min_negative_gradient3 := 0, max_negative_gradient3 := -DBL_MAX
    min_positive_gradient3 := DBL_MAX, max_positive_gradient3 := 0
    negative_gradient3_sum := 0, negative_gradient3_squared_sum := 0
    positive_gradient3_sum := 0, positive_gradient3_squared_sum := 0 }

/-- `UpdateStatistics_`: fold one sampled gradient evaluation into the
running statistics. -/
def UpdateStatistics_ (g : GradSix) (a : MCAccum) : MCAccum :=
  { min_negative_gradient1 :=
      min a.min_negative_gradient1 g.negative_gradient1
    max_negative_gradient1 :=
      max a.max_negative_gradient1 g.negative_gradient1
    min_positive_gradient1 :=
      min a.min_positive_gradient1 g.positive_gradient1
    max_positive_gradient1 :=
      max a.max_positive_gradient1 g.positive_gradient1
    negative_gradient1_sum := a.negative_gradient1_sum + g.negative_gradient1
    negative_gradient1_squared_sum := a.negative_gradient1_squared_sum +
      g.negative_gradient1 * g.negative_gradient1
    positive_gradient1_sum := a.positive_gradient1_sum + g.positive_gradient1
    positive_gradient1_squared_sum := a.positive_gradient1_squared_sum +
      g.positive_gradient1 * g.positive_gradient1
    min_negative_gradient2 :=
      min a.min_negative_gradient2 g.negative_gradient2
    max_negative_gradient2 :=
      max a.max_negative_gradient2 g.negative_gradient2
    min_positive_gradient2 :=
      min a.min_positive_gradient2 g.positive_gradient2
    max_positive_gradient2 :=
      max a.max_positive_gradient2 g.positive_gradient2
    negative_gradient2_sum := a.negative_gradient2_sum + g.negative_gradient2
    negative_gradient2_squared_sum := a.negative_gradient2_squared_sum +
      g.negative_gradient2 * g.negative_gradient2
    positive_gradient2_sum := a.positive_gradient2_sum + g.positive_gradient2
    positive_gradient2_squared_sum := a.positive_gradient2_squared_sum +
      g.positive_gradient2 * g.positive_gradient2
    min_negative_gradient3 :=
      min a.min_negative_gradient3 g.negative_gradient3
    max_negative_gradient3 :=
      max a.max_negative_gradient3 g.negative_gradient3
    min_positive_gradient3 :=
      min a.min_positive_gradient3 g.positive_gradient3
    max_positive_gradient3 :=
      max a.max_positive_gradient3 g.positive_gradient3
    negative_gradient3_sum := a.negative_gradient3_sum + g.negative_gradient3
    negative_gradient3_squared_sum := a.negative_gradient3_squared_sum +
      g.negative_gradient3 * g.negative_gradient3
    positive_gradient3_sum := a.positive_gradient3_sum + g.positive_gradient3
    positive_gradient3_squared_sum := a.positive_gradient3_squared_sum +
      g.positive_gradient3 * g.positive_gradient3 }

/-- `ComputeMonteCarloGradientComponentError_`: sample variance per
component scaled by `z_score * sqrt`. `sqrtFn` abstracts the `double`
square root (whose exact value the claims never depend on: the caller
discards these errors). -/
def ComputeMonteCarloGradientComponentError_ (a : MCAccum)
    (num_samples : ℕ) (z_score : ℚ) (sqrtFn : ℚ → ℚ) : GradErrors :=
  let inverse_factor := 1 / ((num_samples : ℚ) - 1)
  { negative_gradient1_error := z_score * sqrtFn (inverse_factor *
      (a.negative_gradient1_squared_sum - a.negative_gradient1_sum *
        a.negative_gradient1_sum / (num_samples : ℚ)))
    positive_gradient1_error := z_score * sqrtFn (inverse_factor *
      (a.positive_gradient1_squared_sum - a.positive_gradient1_sum *
        a.positive_gradient1_sum / (num_samples : ℚ)))
    negative_gradient2_error := z_score * sqrtFn (inverse_factor *
      (a.negative_gradient2_squared_sum - a.negative_gradient2_sum *
        a.negative_gradient2_sum / (num_samples : ℚ)))
    positive_gradient2_error := z_score * sqrtFn (inverse_factor *
      (a.positive_gradient2_squared_sum - a.positive_gradient2_sum *
        a.positive_gradient2_sum / (num_samples : ℚ)))
    negative_gradient3_error := z_score * sqrtFn (inverse_factor *
      (a.negative_gradient3_squared_sum - a.negative_gradient3_sum *
        a.negative_gradient3_sum / (num_samples : ℚ)))
    positive_gradient3_error := z_score * sqrtFn (inverse_factor *
      (a.positive_gradient3_squared_sum - a.positive_gradient3_sum *
        a.positive_gradient3_sum / (num_samples : ℚ))) }

/-- The sampling do-while loop of `MonteCarloEval`. `draws` is the
stream of random index triples (`math::RandInt` per slot); a draw not in
strictly increasing order is rejected (`continue`); an accepted draw is
folded into the running statistics via the gradient-evaluation oracle
`gradSample` (standing for `EvalMinMaxSquaredDistances` +
`EvalGradients` on the concrete points). When the batch counter reaches
zero the source computes the statistical error, binds it to locals it
never reads, and falls out of the loop returning the `prunable` flag,
which is initialised `false` and never assigned. `none` models a stream
that ends before 25 draws are accepted (the loop would keep sampling). -/
def mcLoop (gradSample : ℕ × ℕ × ℕ → GradSix) (sqrtFn : ℚ → ℚ)
    (z_score : ℚ) :
    List (ℕ × ℕ × ℕ) → ℕ → ℕ → MCAccum → Option Bool
  | [], _, _, _ => none
  | d :: rest, num_sample_trials_remaining, current_num_samples, acc =>
    if ¬(d.1 < d.2.1 ∧ d.2.1 < d.2.2) then
      mcLoop gradSample sqrtFn z_score rest
        num_sample_trials_remaining current_num_samples acc
    else
      let acc' := UpdateStatistics_ (gradSample d) acc
      let trials' := num_sample_trials_remaining - 1
      let samples' := current_num_samples + 1
      if trials' = 0 then
        let _errs :=
          ComputeMonteCarloGradientComponentError_ acc' samples' z_score sqrtFn
        some false
      else mcLoop gradSample sqrtFn z_score rest trials' samples' acc'

/-- `MonteCarloEval`: computes the corrected pair counts, then runs the
sampling loop with a batch budget of 25; the statistics store of the
regions is never touched (the source reads only `begin` / `end` /
`count` of the nodes), so it is returned unchanged alongside the
`prunable` flag. (The source also writes the sampled indices into the
caller's scratch `indices` buffer, which is not region state.) -/
def MonteCarloEval (gradSample : ℕ × ℕ × ℕ → GradSix) (sqrtFn : ℚ → ℚ)
    (t : NodeTriple) (relative_error z_score total_n_minus_one_num_tuples : ℚ)
    (σ : Store) (draws : List (ℕ × ℕ × ℕ)) : Option (Bool × Store) :=
  let _pc := computeNumTwoTuples t
  (mcLoop gradSample sqrtFn z_score draws 25 0 initMCAccum).map
    (fun prunable => (prunable, σ))

/-! Concrete instances used by witnesses and counterexamples. -/

/-- A statistics record with every accumulator zero / empty. -/
def exStatsZero : Stats :=
  { postponed_negative_gradient1_e := 0
    postponed_negative_gradient1_u := 0
    postponed_positive_gradient1_l := 0
    postponed_positive_gradient1_e := 0
    postponed_negative_gradient2_e := []
    postponed_negative_gradient2_u := []
    postponed_positive_gradient2_l := []
    postponed_positive_gradient2_e := []
    negative_gradient1_u := 0
    positive_gradient1_l := 0
    negative_gradient2_u := []
    positive_gradient2_l := []
    coordinate_sum_ := []
    l1_norm_coordinate_sum_ := 0 }

/-- The all-zero statistics store. -/
def exStoreZero : Store := fun _ => exStatsZero

/-- A single node of count 1. -/
def exNode1 : TreeNode := { id := 0, count := 1 }

/-- A single node of count 2. -/
def exNode2 : TreeNode := { id := 0, count := 2 }

/-- A single node of count 3. -/
def exNode3 : TreeNode := { id := 0, count := 3 }

/-- A second node, distinct from the others, of count 2. -/
def exNodeB : TreeNode := { id := 1, count := 2 }

/-- A third node, distinct from the others, of count 4. -/
def exNodeC : TreeNode := { id := 2, count := 4 }

/-- The fully aliased triple of count-1 nodes. -/
def exTripleSame1 : NodeTriple := { n0 := exNode1, n1 := exNode1, n2 := exNode1 }

/-- The fully aliased triple of count-2 nodes. -/
def exTripleSame2 : NodeTriple := { n0 := exNode2, n1 := exNode2, n2 := exNode2 }

/-- The fully aliased triple of count-3 nodes. -/
def exTripleSame3 : NodeTriple := { n0 := exNode3, n1 := exNode3, n2 := exNode3 }

/-- Statistics exhibiting the missing postponed term in slot 0's
negative-gradient cross budget: the region's own
`negative_gradient2_u` accumulator is empty while the postponed one is
not. -/
def exStatsCross : Stats :=
  { exStatsZero with
    negative_gradient1_u := 1
    l1_norm_coordinate_sum_ := 1
    postponed_negative_gradient2_u := [1] }

/-- Store assigning `exStatsCross` to every node. -/
def exStoreCross : Store := fun _ => exStatsCross

/-- Statistics with a negative accumulated positive-gradient lower
bound (no invariant in the kernel prevents this; `Prunable_` applies
`fabs` only to the negative-gradient budget). -/
def exStatsNegPos : Stats := { exStatsZero with positive_gradient1_l := -1 }

/-- Store assigning `exStatsNegPos` to every node. -/
def exStoreNegPos : Store := fun _ => exStatsNegPos

/-- Gradient-evaluation oracle whose twelve bounds are all finite zero. -/
def exGradZero : DistMat → GradOut := fun _ =>
  { min_negative_gradient1 := .val 0, max_negative_gradient1 := .val 0
    min_positive_gradient1 := .val 0, max_positive_gradient1 := .val 0
    min_negative_gradient2 := .val 0, max_negative_gradient2 := .val 0
    min_positive_gradient2 := .val 0, max_positive_gradient2 := .val 0
    min_negative_gradient3 := .val 0, max_negative_gradient3 := .val 0
    min_positive_gradient3 := .val 0, max_positive_gradient3 := .val 0 }

/-- Distance oracle returning 0 for every pair (degenerate geometry). -/
def exDistZero : ℕ → ℕ → ℚ := fun _ _ => 0

/-- Distance oracle returning 1 for every pair. -/
def exDistOne : ℕ → ℕ → ℚ := fun _ _ => 1

/-- Sampled-gradient oracle returning the constant vector of ones
(zero sample variance). -/
def exGradSampleOne : ℕ × ℕ × ℕ → GradSix := fun _ => ⟨1, 1, 1, 1, 1, 1⟩

/-- Identity stand-in for the square root (its value is never used). -/
def exSqrt : ℚ → ℚ := fun q => q

/-- A stream of 25 accepted draws (each strictly increasing). -/
def exDraws : List (ℕ × ℕ × ℕ) := List.replicate 25 (0, 1, 2)

/-- Zero gradient-bound interval. -/
def exGB : GradBounds := ⟨0, 0, 0, 0⟩

/-! Helper lemmas. -/

/-- `addExpert` with an empty target. -/
lemma addExpert_nil_right (a : ℚ) (x : List ℚ) : addExpert a x [] = [] := by
  cases x <;> rfl

/-- `addExpert` with an empty source. -/
lemma addExpert_nil_left (a : ℚ) (v : List ℚ) : addExpert a [] v = [] := by
  cases v <;> rfl

/-- `addExpert` unfolding on cons cells. -/
lemma addExpert_cons (a x0 y0 : ℚ) (xs ys : List ℚ) :
    addExpert a (x0 :: xs) (y0 :: ys) = (y0 + a * x0) :: addExpert a xs ys :=
  rfl

/-- Two `addExpert` accumulations into the same target commute. -/
lemma addExpert_comm (a : ℚ) (x : List ℚ) (b : ℚ) (y v : List ℚ) :
    addExpert a x (addExpert b y v) = addExpert b y (addExpert a x v) := by
  induction v generalizing x y with
  | nil => simp [addExpert_nil_right]
  | cons v0 vs ih =>
    cases x with
    | nil => simp [addExpert_nil_left, addExpert_nil_right]
    | cons x0 xs =>
      cases y with
      | nil => simp [addExpert_nil_left, addExpert_nil_right]
      | cons y0 ys =>
        simp only [addExpert_cons]
        exact congrArg₂ _ (by ring) (ih xs ys)

/-- Four `addExpert` accumulations: the first pair moves past the
second pair. -/
lemma addExpert_swap4 (a : ℚ) (x : List ℚ) (b : ℚ) (y : List ℚ)
    (c : ℚ) (z : List ℚ) (d : ℚ) (w v : List ℚ) :
    addExpert a x (addExpert b y (addExpert c z (addExpert d w v))) =
    addExpert c z (addExpert d w (addExpert a x (addExpert b y v))) := by
  rw [addExpert_comm b y c z (addExpert d w v),
    addExpert_comm b y d w v,
    addExpert_comm a x c z (addExpert d w (addExpert b y v)),
    addExpert_comm a x d w (addExpert b y v)]

/-- Two `slotUpdate`s on the same statistics record commute: every
written field is accumulated additively. -/
lemma slotUpdate_comm (p cA : ℚ) (csA : List ℚ) (gA : GradBounds)
    (cB : ℚ) (csB : List ℚ) (gB : GradBounds)
    (q cA' : ℚ) (csA' : List ℚ) (gA' : GradBounds)
    (cB' : ℚ) (csB' : List ℚ) (gB' : GradBounds) (s : Stats) :
    slotUpdate p cA csA gA cB csB gB (slotUpdate q cA' csA' gA' cB' csB' gB' s) =
    slotUpdate q cA' csA' gA' cB' csB' gB' (slotUpdate p cA csA gA cB csB gB s) := by
  cases s
  simp only [slotUpdate, Stats.mk.injEq]
  refine ⟨by ring, by ring, by ring, by ring, ?_, ?_, ?_, ?_,
    trivial, trivial, trivial, trivial, trivial, trivial⟩ <;>
    exact addExpert_swap4 _ _ _ _ _ _ _ _ _

/-- `applyAt` leaves other ids untouched. -/
lemma applyAt_ne (i : ℕ) (f : Stats → Stats) (σ : Store) (n : ℕ)
    (h : n ≠ i) : applyAt i f σ n = σ n := by
  simp [applyAt, h]

/-- Two `applyAt` updates commute whenever the updates themselves do. -/
lemma applyAt_comm (i j : ℕ) (f g : Stats → Stats) (σ : Store)
    (h : ∀ s, f (g s) = g (f s)) :
    applyAt i f (applyAt j g σ) = applyAt j g (applyAt i f σ) := by
  funext n
  by_cases hi : n = i
  · subst hi
    by_cases hj : n = j
    · subst hj
      simp [applyAt, h]
    · simp [applyAt, hj]
  · by_cases hj : n = j
    · subst hj
      simp [applyAt, hi]
    · simp [applyAt, hi, hj]

/-- `applyAt` with a `slotUpdate` preserves every `coordinate_sum_`. -/
lemma applyAt_slotUpdate_cs (i : ℕ) (p cA : ℚ) (csA : List ℚ)
    (gA : GradBounds) (cB : ℚ) (csB : List ℚ) (gB : GradBounds)
    (σ : Store) (n : ℕ) :
    ((applyAt i (slotUpdate p cA csA gA cB csB gB) σ) n).coordinate_sum_ =
    (σ n).coordinate_sum_ := by
  simp only [applyAt]
  split <;> rfl

/-- Slot 0's update preserves every `coordinate_sum_`. -/
lemma pruneSlot0_cs (t : NodeTriple) (g1 g2 : GradBounds) (njk : ℚ)
    (σ : Store) (n : ℕ) :
    ((pruneSlot0 t g1 g2 njk σ) n).coordinate_sum_ = (σ n).coordinate_sum_ := by
  simp only [pruneSlot0]
  exact applyAt_slotUpdate_cs _ _ _ _ _ _ _ _ _ _

/-- Slot 1's update preserves every `coordinate_sum_`. -/
lemma pruneSlot1_cs (t : NodeTriple) (g1 g3 : GradBounds) (nik : ℚ)
    (σ : Store) (n : ℕ) :
    ((pruneSlot1 t g1 g3 nik σ) n).coordinate_sum_ = (σ n).coordinate_sum_ := by
  simp only [pruneSlot1]
  split
  · rfl
  · exact applyAt_slotUpdate_cs _ _ _ _ _ _ _ _ _ _

/-- Slot 2's update preserves every `coordinate_sum_`. -/
lemma pruneSlot2_cs (t : NodeTriple) (g2 g3 : GradBounds) (nij : ℚ)
    (σ : Store) (n : ℕ) :
    ((pruneSlot2 t g2 g3 nij σ) n).coordinate_sum_ = (σ n).coordinate_sum_ := by
  simp only [pruneSlot2]
  split
  · rfl
  · exact applyAt_slotUpdate_cs _ _ _ _ _ _ _ _ _ _

/-- Slot 0's and slot 1's updates commute. -/
lemma slot01_comm (t : NodeTriple) (g1 g2 g3 : GradBounds) (njk nik : ℚ)
    (σ : Store) :
    pruneSlot1 t g1 g3 nik (pruneSlot0 t g1 g2 njk σ) =
    pruneSlot0 t g1 g2 njk (pruneSlot1 t g1 g3 nik σ) := by
  by_cases h01 : t.n1.id = t.n0.id
  · simp [pruneSlot1, h01]
  · simp only [pruneSlot1, if_neg h01, pruneSlot0]
    rw [applyAt_slotUpdate_cs, applyAt_slotUpdate_cs,
      applyAt_slotUpdate_cs, applyAt_slotUpdate_cs]
    exact applyAt_comm _ _ _ _ _
      (fun s => slotUpdate_comm _ _ _ _ _ _ _ _ _ _ _ _ _ _ s)

/-- Slot 0's and slot 2's updates commute. -/
lemma slot02_comm (t : NodeTriple) (g1 g2 g3 : GradBounds) (njk nij : ℚ)
    (σ : Store) :
    pruneSlot2 t g2 g3 nij (pruneSlot0 t g1 g2 njk σ) =
    pruneSlot0 t g1 g2 njk (pruneSlot2 t g2 g3 nij σ) := by
  by_cases h21 : t.n2.id = t.n1.id
  · simp [pruneSlot2, h21]
  · simp only [pruneSlot2, if_neg h21, pruneSlot0]
    rw [applyAt_slotUpdate_cs, applyAt_slotUpdate_cs,
      applyAt_slotUpdate_cs, applyAt_slotUpdate_cs]
    exact applyAt_comm _ _ _ _ _
      (fun s => slotUpdate_comm _ _ _ _ _ _ _ _ _ _ _ _ _ _ s)

/-- Slot 1's and slot 2's updates commute. -/
lemma slot12_comm (t : NodeTriple) (g1 g2 g3 : GradBounds) (nik nij : ℚ)
    (σ : Store) :
    pruneSlot2 t g2 g3 nij (pruneSlot1 t g1 g3 nik σ) =
    pruneSlot1 t g1 g3 nik (pruneSlot2 t g2 g3 nij σ) := by
  by_cases h01 : t.n1.id = t.n0.id
  · simp [pruneSlot1, h01]
  · by_cases h21 : t.n2.id = t.n1.id
    · simp [pruneSlot2, h21]
    · simp only [pruneSlot1, if_neg h01, pruneSlot2, if_neg h21]
      rw [applyAt_slotUpdate_cs, applyAt_slotUpdate_cs,
        applyAt_slotUpdate_cs, applyAt_slotUpdate_cs]
      exact applyAt_comm _ _ _ _ _
        (fun s => slotUpdate_comm _ _ _ _ _ _ _ _ _ _ _ _ _ _ s)

/-- `Prune_` leaves every node outside the triple untouched. -/
lemma pruneNodes_frame (t : NodeTriple) (g1 g2 g3 : GradBounds)
    (njk nik nij : ℚ) (σ : Store) (n : ℕ)
    (h0 : n ≠ t.n0.id) (h1 : n ≠ t.n1.id) (h2 : n ≠ t.n2.id) :
    PruneNodes t g1 g2 g3 njk nik nij σ n = σ n := by
  unfold PruneNodes pruneSlot0 pruneSlot1 pruneSlot2
  split_ifs <;> simp [applyAt, h0, h1, h2]

/-- `Prunable_` as the conjunction of the three slot verdicts, with the
aliasing reuse of the previous slot's verdict. -/
lemma prunable_eq_slots (t : NodeTriple) (σ : Store)
    (e1 e2 e3 e4 e5 e6 njk nik nij r T : ℚ) :
    Prunable_ t σ e1 e2 e3 e4 e5 e6 njk nik nij r T =
      (prunableFirst t σ e1 e2 e3 e4 njk r T &&
       (if t.n1.id = t.n0.id then prunableFirst t σ e1 e2 e3 e4 njk r T
        else prunableSecond t σ e1 e2 e5 e6 nik r T) &&
       (if t.n2.id = t.n1.id then
          (if t.n1.id = t.n0.id then prunableFirst t σ e1 e2 e3 e4 njk r T
           else prunableSecond t σ e1 e2 e5 e6 nik r T)
        else prunableThird t σ e3 e4 e5 e6 nij r T)) := by
  simp only [Prunable_]
  cases hF : prunableFirst t σ e1 e2 e3 e4 njk r T <;>
    by_cases h01 : t.n1.id = t.n0.id <;>
      by_cases h12 : t.n2.id = t.n1.id <;>
        cases hS : prunableSecond t σ e1 e2 e5 e6 nik r T <;>
          simp [h01, h12, hF, hS]

/-- Monotonicity in `r` of a comparison of shape `a ≤ r / T * M`. -/
lemma budget_mono_div {a r1 r2 T M : ℚ} (hr : r1 ≤ r2) (hT : 0 < T)
    (hM : 0 ≤ M) (h : a ≤ r1 / T * M) : a ≤ r2 / T * M := by
  have h1 : r1 / T ≤ r2 / T := by
    rw [div_eq_mul_inv, div_eq_mul_inv]
    exact mul_le_mul_of_nonneg_right hr (inv_nonneg.mpr hT.le)
  exact h.trans (mul_le_mul_of_nonneg_right h1 hM)

/-- Monotonicity in `r` of a comparison of shape `a ≤ r * n / T * M`. -/
lemma budget_mono_mul {a r1 r2 n T M : ℚ} (hr : r1 ≤ r2) (hT : 0 < T)
    (hn : 0 ≤ n) (hM : 0 ≤ M) (h : a ≤ r1 * n / T * M) :
    a ≤ r2 * n / T * M := by
  have h1 : r1 * n / T ≤ r2 * n / T := by
    rw [div_eq_mul_inv, div_eq_mul_inv]
    exact mul_le_mul_of_nonneg_right
      (mul_le_mul_of_nonneg_right hr hn) (inv_nonneg.mpr hT.le)
  exact h.trans (mul_le_mul_of_nonneg_right h1 hM)

/-- The L1 norm is nonnegative. -/
lemma L1Norm_nonneg (v : List ℚ) : 0 ≤ L1Norm_ v := by
  unfold L1Norm_
  refine List.sum_nonneg ?_
  intro x hx
  simp only [List.mem_map] at hx
  obtain ⟨y, _, rfl⟩ := hx
  exact abs_nonneg y

/-- Slot 0's block is monotone in `relative_error` provided the
normalizer is positive, the pair count nonnegative and the slot's
accumulated positive-gradient lower bound nonnegative. -/
lemma prunableFirst_mono {t : NodeTriple} {σ : Store}
    {e1 e2 e3 e4 njk r1 r2 T : ℚ} (hr : r1 ≤ r2) (hT : 0 < T)
    (hjk : 0 ≤ njk)
    (hpos : 0 ≤ (σ t.n0.id).positive_gradient1_l +
      (σ t.n0.id).postponed_positive_gradient1_l)
    (h : prunableFirst t σ e1 e2 e3 e4 njk r1 T = true) :
    prunableFirst t σ e1 e2 e3 e4 njk r2 T = true := by
  simp only [prunableFirst, Bool.and_eq_true, decide_eq_true_eq] at h ⊢
  obtain ⟨⟨⟨h1, h2⟩, h3⟩, h4⟩ := h
  exact ⟨⟨⟨budget_mono_div hr hT (abs_nonneg _) h1,
      budget_mono_div hr hT hpos h2⟩,
    budget_mono_mul hr hT hjk (L1Norm_nonneg _) h3⟩,
    budget_mono_mul hr hT hjk
      (add_nonneg (L1Norm_nonneg _) (L1Norm_nonneg _)) h4⟩

/-- Slot 1's block is monotone in `relative_error` under the analogous
side conditions. -/
lemma prunableSecond_mono {t : NodeTriple} {σ : Store}
    {e1 e2 e5 e6 nik r1 r2 T : ℚ} (hr : r1 ≤ r2) (hT : 0 < T)
    (hik : 0 ≤ nik)
    (hpos : 0 ≤ (σ t.n1.id).positive_gradient1_l +
      (σ t.n1.id).postponed_positive_gradient1_l)
    (h : prunableSecond t σ e1 e2 e5 e6 nik r1 T = true) :
    prunableSecond t σ e1 e2 e5 e6 nik r2 T = true := by
  simp only [prunableSecond, Bool.and_eq_true, decide_eq_true_eq] at h ⊢
  obtain ⟨⟨⟨h1, h2⟩, h3⟩, h4⟩ := h
  exact ⟨⟨⟨budget_mono_div hr hT (abs_nonneg _) h1,
      budget_mono_div hr hT hpos h2⟩,
    budget_mono_mul hr hT hik
      (add_nonneg (L1Norm_nonneg _) (L1Norm_nonneg _)) h3⟩,
    budget_mono_mul hr hT hik
      (add_nonneg (L1Norm_nonneg _) (L1Norm_nonneg _)) h4⟩

/-- Slot 2's block is monotone in `relative_error` under the analogous
side conditions. -/
lemma prunableThird_mono {t : NodeTriple} {σ : Store}
    {e3 e4 e5 e6 nij r1 r2 T : ℚ} (hr : r1 ≤ r2) (hT : 0 < T)
    (hij : 0 ≤ nij)
    (hpos : 0 ≤ (σ t.n2.id).positive_gradient1_l +
      (σ t.n2.id).postponed_positive_gradient1_l)
    (h : prunableThird t σ e3 e4 e5 e6 nij r1 T = true) :
    prunableThird t σ e3 e4 e5 e6 nij r2 T = true := by
  simp only [prunableThird, Bool.and_eq_true, decide_eq_true_eq] at h ⊢
  obtain ⟨⟨⟨h1, h2⟩, h3⟩, h4⟩ := h
  exact ⟨⟨⟨budget_mono_div hr hT (abs_nonneg _) h1,
      budget_mono_div hr hT hpos h2⟩,
    budget_mono_mul hr hT hij
      (add_nonneg (L1Norm_nonneg _) (L1Norm_nonneg _)) h3⟩,
    budget_mono_mul hr hT hij
      (add_nonneg (L1Norm_nonneg _) (L1Norm_nonneg _)) h4⟩

/-- The sampling loop, when it terminates, always reports `false` (the
`prunable` flag of `MonteCarloEval` is initialised `false` and never
assigned). -/
lemma mcLoop_some_false (gs : ℕ × ℕ × ℕ → GradSix) (sf : ℚ → ℚ) (z : ℚ) :
    ∀ (draws : List (ℕ × ℕ × ℕ)) (trials nsamp : ℕ) (acc : MCAccum)
      (b : Bool), mcLoop gs sf z draws trials nsamp acc = some b →
      b = false := by
  intro draws
  induction draws with
  | nil =>
    intro trials nsamp acc b h
    simp [mcLoop] at h
  | cons d rest ih =>
    intro trials nsamp acc b h
    simp only [mcLoop] at h
    split_ifs at h
    · exact (Option.some.inj h).symm
    · exact ih _ _ _ _ h
    · exact ih _ _ _ _ h

/-! Claim theorems. -/

/-- Claim C4: `ComputeNumTwoTuples_` returns `C(a-1, 2)` three times
when all slots are the same region of count `a`; `(a-1)·b`, `(a-1)·b`,
`C(a, 2)` when slots i and j share a region of count `a` and slot k has
a distinct region of count `b`; and the pairwise products `b·c`, `a·c`,
`a·b` when the three regions are distinct with counts `a`, `b`, `c`.
(The count hypotheses keep the natural-number subtraction of the model
aligned with the C++ integer subtraction.) -/
theorem compute_num_two_tuples_cases :
    (∀ n : TreeNode, 1 ≤ n.count →
      computeNumTwoTuples ⟨n, n, n⟩ =
        { num_jk_pairs := (((n.count - 1).choose 2 : ℕ) : ℚ)
          num_ik_pairs := (((n.count - 1).choose 2 : ℕ) : ℚ)
          num_ij_pairs := (((n.count - 1).choose 2 : ℕ) : ℚ) }) ∧
    (∀ n m : TreeNode, n.id ≠ m.id → 1 ≤ n.count →
      computeNumTwoTuples ⟨n, n, m⟩ =
        { num_jk_pairs := (((n.count - 1) * m.count : ℕ) : ℚ)
          num_ik_pairs := (((n.count - 1) * m.count : ℕ) : ℚ)
          num_ij_pairs := ((n.count.choose 2 : ℕ) : ℚ) }) ∧
    (∀ n m p : TreeNode, n.id ≠ m.id → m.id ≠ p.id → n.id ≠ p.id →
      computeNumTwoTuples ⟨n, m, p⟩ =
        { num_jk_pairs := ((m.count * p.count : ℕ) : ℚ)
          num_ik_pairs := ((n.count * p.count : ℕ) : ℚ)
          num_ij_pairs := ((n.count * m.count : ℕ) : ℚ) }) := by
  refine ⟨?_, ?_, ?_⟩
  · intro n _
    simp [computeNumTwoTuples]
  · intro n m hnm _
    simp [computeNumTwoTuples, hnm]
  · intro n m p hnm hmp _
    simp [computeNumTwoTuples, hnm, hmp]

/-- Witness for C4: concrete instantiations of the three cases. -/
theorem compute_num_two_tuples_cases_witness :
    computeNumTwoTuples ⟨exNode3, exNode3, exNode3⟩ =
      { num_jk_pairs := 1, num_ik_pairs := 1, num_ij_pairs := 1 } ∧
    computeNumTwoTuples ⟨exNode2, exNode2, exNodeB⟩ =
      { num_jk_pairs := 2, num_ik_pairs := 2, num_ij_pairs := 1 } ∧
    computeNumTwoTuples ⟨exNode2, exNodeB, exNodeC⟩ =
      { num_jk_pairs := 8, num_ik_pairs := 8, num_ij_pairs := 4 } := by
  refine ⟨?_, ?_, ?_⟩
  · exact (compute_num_two_tuples_cases.1 exNode3 (by decide)).trans
      (by norm_num [exNode3])
  · exact (compute_num_two_tuples_cases.2.1 exNode2 exNodeB (by decide)
      (by decide)).trans (by norm_num [exNode2, exNodeB])
  · exact (compute_num_two_tuples_cases.2.2 exNode2 exNodeB exNodeC (by decide)
      (by decide) (by decide)).trans (by norm_num [exNode2, exNodeB, exNodeC])

/-- Claim C3 (bug evidence): the pair counts the deterministic tree-node
`Eval` passes to `Prunable_` and `Prune_` are the plain products of the
slot counts, NOT the combinatorially corrected `ComputeNumTwoTuples_`
values: on the fully aliased triple of a count-2 node, `Eval` passes
`4, 4, 4` while the corrected counts are `C(1, 2) = 0` each. -/
theorem eval_pair_counts_plain_products_at_aliased :
    evalPairCounts exTripleSame2 =
      { num_jk_pairs := 4, num_ik_pairs := 4, num_ij_pairs := 4 } ∧
    computeNumTwoTuples exTripleSame2 =
      { num_jk_pairs := 0, num_ik_pairs := 0, num_ij_pairs := 0 } := by
  constructor
  · norm_num [evalPairCounts, exTripleSame2, exNode2]
  · norm_num [computeNumTwoTuples, exTripleSame2, exNode2]

/-- Claim C2 (counterexample): slot 0's cross-term comparison on the
negative gradient does NOT include the postponed accumulator in its
budget. With an empty own accumulator but a nonzero postponed one,
the source `Prunable_` rejects while the uniform-budget reading of the
spec accepts. -/
theorem prunable_slot0_cross_budget_cex :
    Prunable_ exTripleSame1 exStoreCross 1 0 0 0 0 0 1 1 1 1 1 = false ∧
    PrunableSpecUniform exTripleSame1 exStoreCross 1 0 0 0 0 0 1 1 1 1 1 =
      true := by
  constructor
  · norm_num [Prunable_, prunableFirst, exTripleSame1, exStoreCross,
      exStatsCross, exStatsZero, exNode1, L1Norm_]
  · norm_num [PrunableSpecUniform, prunableFirstUniform, exTripleSame1,
      exStoreCross, exStatsCross, exStatsZero, exNode1, L1Norm_]

/-- Claim C2 (amended): `Prunable_` computes every budget from the own
plus postponed accumulated magnitudes exactly as the spec says, EXCEPT
that slot 0's negative-gradient cross-term budget omits the postponed
accumulator; consequently the claim as stated holds whenever the L1
norm of slot 0's postponed negative `gradient2` upper accumulator is
zero. -/
theorem prunable_matches_spec_budgets_of_no_postponed (t : NodeTriple)
    (σ : Store) (e1 e2 e3 e4 e5 e6 njk nik nij r T : ℚ)
    (h : L1Norm_ ((σ t.n0.id).postponed_negative_gradient2_u) = 0) :
    Prunable_ t σ e1 e2 e3 e4 e5 e6 njk nik nij r T =
    PrunableSpecUniform t σ e1 e2 e3 e4 e5 e6 njk nik nij r T := by
  simp only [Prunable_, PrunableSpecUniform, prunableFirst,
    prunableFirstUniform, h, add_zero]

/-- Witness for the amended C2. -/
theorem prunable_matches_spec_budgets_witness :
    Prunable_ exTripleSame1 exStoreZero 0 0 0 0 0 0 1 1 1 1 1 =
    PrunableSpecUniform exTripleSame1 exStoreZero 0 0 0 0 0 0 1 1 1 1 1 :=
  prunable_matches_spec_budgets_of_no_postponed exTripleSame1 exStoreZero
    0 0 0 0 0 0 1 1 1 1 1 (by norm_num [exStoreZero, exStatsZero, L1Norm_])

/-- Claim C6: `Prunable_` returns true iff the three per-slot tests all
pass, where the slot-1 test reuses the slot-0 verdict when slot 1
references the same node as slot 0, and the slot-2 test reuses the
slot-1 verdict when slot 2 references the same node as slot 1
(evaluation short-circuits in slot order, so the result is exactly this
conjunction). -/
theorem prunable_iff_three_slot_tests (t : NodeTriple) (σ : Store)
    (e1 e2 e3 e4 e5 e6 njk nik nij r T : ℚ) :
    Prunable_ t σ e1 e2 e3 e4 e5 e6 njk nik nij r T = true ↔
      (prunableFirst t σ e1 e2 e3 e4 njk r T = true ∧
       (if t.n1.id = t.n0.id then prunableFirst t σ e1 e2 e3 e4 njk r T
        else prunableSecond t σ e1 e2 e5 e6 nik r T) = true ∧
       (if t.n2.id = t.n1.id then
          (if t.n1.id = t.n0.id then prunableFirst t σ e1 e2 e3 e4 njk r T
           else prunableSecond t σ e1 e2 e5 e6 nik r T)
        else prunableThird t σ e3 e4 e5 e6 nij r T) = true) := by
  rw [prunable_eq_slots]
  simp [Bool.and_eq_true, and_assoc]

/-- Claim C7 (counterexample): with all errors zero, unit pair counts
and normalizer, and statistics whose accumulated positive-gradient
lower bound is negative, the triple is prunable at `relative_error = 0`
but NOT at the larger `relative_error = 1`: `Prunable_` is not monotone
in `relative_error` for arbitrary statistics. -/
theorem prunable_not_monotone_cex :
    Prunable_ exTripleSame1 exStoreNegPos 0 0 0 0 0 0 1 1 1 0 1 = true ∧
    Prunable_ exTripleSame1 exStoreNegPos 0 0 0 0 0 0 1 1 1 1 1 = false ∧
    (0 : ℚ) ≤ 1 := by
  refine ⟨?_, ?_, by norm_num⟩
  · norm_num [Prunable_, prunableFirst, exTripleSame1, exStoreNegPos,
      exStatsNegPos, exStatsZero, exNode1, L1Norm_]
  · norm_num [Prunable_, prunableFirst, exTripleSame1, exStoreNegPos,
      exStatsNegPos, exStatsZero, exNode1, L1Norm_]

/-- Claim C7 (amended): `Prunable_` is monotone in `relative_error`
provided the normalizer is positive, the three pair counts are
nonnegative and each slot's accumulated positive-gradient lower bound
(own plus postponed) is nonnegative, as holds for well-formed
statistics; increasing `relative_error` then never turns a prunable
triple unprunable, and decreasing it never turns an unprunable triple
prunable. -/
theorem prunable_monotone_of_nonneg (t : NodeTriple) (σ : Store)
    (e1 e2 e3 e4 e5 e6 njk nik nij r1 r2 T : ℚ)
    (hr : r1 ≤ r2) (hT : 0 < T)
    (hjk : 0 ≤ njk) (hik : 0 ≤ nik) (hij : 0 ≤ nij)
    (h0 : 0 ≤ (σ t.n0.id).positive_gradient1_l +
      (σ t.n0.id).postponed_positive_gradient1_l)
    (h1 : 0 ≤ (σ t.n1.id).positive_gradient1_l +
      (σ t.n1.id).postponed_positive_gradient1_l)
    (h2 : 0 ≤ (σ t.n2.id).positive_gradient1_l +
      (σ t.n2.id).postponed_positive_gradient1_l)
    (h : Prunable_ t σ e1 e2 e3 e4 e5 e6 njk nik nij r1 T = true) :
    Prunable_ t σ e1 e2 e3 e4 e5 e6 njk nik nij r2 T = true := by
  rw [prunable_eq_slots] at h ⊢
  simp only [Bool.and_eq_true] at h ⊢
  obtain ⟨⟨hA, hB⟩, hC⟩ := h
  have hA2 := prunableFirst_mono hr hT hjk h0 hA
  have hB2 : (if t.n1.id = t.n0.id then
      prunableFirst t σ e1 e2 e3 e4 njk r2 T
      else prunableSecond t σ e1 e2 e5 e6 nik r2 T) = true := by
    split_ifs at hB ⊢
    · exact hA2
    · exact prunableSecond_mono hr hT hik h1 hB
  refine ⟨⟨hA2, hB2⟩, ?_⟩
  by_cases h12 : t.n2.id = t.n1.id
  · rw [if_pos h12]
    exact hB2
  · rw [if_neg h12] at hC ⊢
    exact prunableThird_mono hr hT hij h2 hC

/-- A run of the sampling loop over a stream of exactly as many
accepted draws as the remaining batch budget completes the batch and
reports `false`. -/
lemma mcLoop_accepted_run (gs : ℕ × ℕ × ℕ → GradSix) (sf : ℚ → ℚ)
    (z : ℚ) : ∀ (draws : List (ℕ × ℕ × ℕ)) (nsamp : ℕ) (acc : MCAccum),
    draws ≠ [] → (∀ d ∈ draws, d.1 < d.2.1 ∧ d.2.1 < d.2.2) →
    mcLoop gs sf z draws draws.length nsamp acc = some false := by
  intro draws
  induction draws with
  | nil =>
    intro nsamp acc h _
    exact absurd rfl h
  | cons d rest ih =>
    intro nsamp acc _ hacc
    have hd := hacc d (List.mem_cons_self d rest)
    simp only [mcLoop, List.length_cons]
    rw [if_neg (not_not_intro hd), Nat.add_sub_cancel]
    by_cases hr : rest.length = 0
    · rw [if_pos hr]
    · rw [if_neg hr]
      have hne : rest ≠ [] := by
        cases rest with
        | nil => simp at hr
        | cons a b => simp
      exact ih _ _ hne (fun x hx => hacc x (List.mem_cons_of_mem d hx))

/-- `MonteCarloEval` on a stream of 25 accepted draws terminates with
`false` and the untouched store. -/
lemma monteCarloEval_run (gs : ℕ × ℕ × ℕ → GradSix) (sf : ℚ → ℚ)
    (t : NodeTriple) (r z T : ℚ) (σ : Store) (draws : List (ℕ × ℕ × ℕ))
    (hlen : draws.length = 25)
    (hacc : ∀ d ∈ draws, d.1 < d.2.1 ∧ d.2.1 < d.2.2) :
    MonteCarloEval gs sf t r z T σ draws = some (false, σ) := by
  have hne : draws ≠ [] := by
    intro he
    rw [he] at hlen
    simp at hlen
  have h := mcLoop_accepted_run gs sf z draws 0 initMCAccum hne hacc
  rw [hlen] at h
  simp only [MonteCarloEval]
  rw [h]
  rfl

/-- Every element of `exDraws` is strictly increasing. -/
lemma exDraws_accepted : ∀ d ∈ exDraws, d.1 < d.2.1 ∧ d.2.1 < d.2.2 := by
  intro d hd
  simp only [exDraws, List.mem_replicate] at hd
  rw [hd.2]
  exact ⟨Nat.zero_lt_one, Nat.one_lt_two⟩

/-- `exDraws` has exactly one batch of draws. -/
lemma exDraws_length : exDraws.length = 25 := by
  simp [exDraws]

/-- Witness for the amended C7. -/
theorem prunable_monotone_witness :
    Prunable_ exTripleSame1 exStoreZero 0 0 0 0 0 0 1 1 1 1 1 = true :=
  prunable_monotone_of_nonneg exTripleSame1 exStoreZero 0 0 0 0 0 0 1 1 1 0 1 1
    (by norm_num) (by norm_num) (by norm_num) (by norm_num) (by norm_num)
    (by norm_num [exStoreZero, exStatsZero])
    (by norm_num [exStoreZero, exStatsZero])
    (by norm_num [exStoreZero, exStatsZero])
    (by norm_num [Prunable_, prunableFirst, exTripleSame1, exStoreZero,
      exStatsZero, exNode1, L1Norm_])

/-- Claim C1 (bug evidence): at a triple and parameterisation where the
batch criterion of §4.4 is satisfiable (constant sampled gradients give
zero statistical error, and `Prunable_` accepts zero errors at this
store even for a tiny relative error), `MonteCarloEval` nevertheless
finishes its first completed batch of 25 accepted samples by computing
the statistical error, discarding it, and returning `false` with the
statistics store untouched — it never checks prunability, never
propagates, and never starts a new batch, for a loose budget just as
for a tight one. -/
theorem monte_carlo_eval_ignores_prune_criterion :
    Prunable_ exTripleSame3 exStoreZero 0 0 0 0 0 0 1 1 1 (1/1000000) 1 =
      true ∧
    MonteCarloEval exGradSampleOne exSqrt exTripleSame3 (1/1000000) 2 1
      exStoreZero exDraws = some (false, exStoreZero) ∧
    MonteCarloEval exGradSampleOne exSqrt exTripleSame3 1000000 2 1
      exStoreZero exDraws = some (false, exStoreZero) := by
  refine ⟨?_, ?_, ?_⟩
  · norm_num [Prunable_, prunableFirst, exTripleSame3, exStoreZero,
      exStatsZero, exNode3, L1Norm_]
  · exact monteCarloEval_run exGradSampleOne exSqrt exTripleSame3
      (1/1000000) 2 1 exStoreZero exDraws exDraws_length exDraws_accepted
  · exact monteCarloEval_run exGradSampleOne exSqrt exTripleSame3
      1000000 2 1 exStoreZero exDraws exDraws_length exDraws_accepted

/-- Claim C9: whenever `MonteCarloEval` terminates it returns `false`
with the statistics store unchanged, and its result is independent of
the `relative_error` and `total_n_minus_one_num_tuples` arguments (the
source never reads them), for every gradient oracle and every stream of
random draws. -/
theorem monte_carlo_eval_false_and_pure (gradSample : ℕ × ℕ × ℕ → GradSix)
    (sqrtFn : ℚ → ℚ) (t : NodeTriple) (r r' z T T' : ℚ) (σ : Store)
    (draws : List (ℕ × ℕ × ℕ)) (b : Bool) (σ' : Store)
    (h : MonteCarloEval gradSample sqrtFn t r z T σ draws = some (b, σ')) :
    b = false ∧ σ' = σ ∧
    MonteCarloEval gradSample sqrtFn t r z T σ draws =
      MonteCarloEval gradSample sqrtFn t r' z T' σ draws := by
  refine ⟨?_, ?_, rfl⟩ <;>
    (simp only [MonteCarloEval, Option.map_eq_some'] at h
     obtain ⟨p, hp, hx⟩ := h
     injection hx with hb hσ)
  · rw [← hb]
    exact mcLoop_some_false gradSample sqrtFn z draws 25 0 initMCAccum p hp
  · exact hσ.symm

/-- Witness for C9. -/
theorem monte_carlo_eval_false_witness :
    false = false ∧ exStoreZero = exStoreZero ∧
    MonteCarloEval exGradSampleOne exSqrt exTripleSame3 1 2 1 exStoreZero
      exDraws =
    MonteCarloEval exGradSampleOne exSqrt exTripleSame3 5 2 7 exStoreZero
      exDraws :=
  monte_carlo_eval_false_and_pure exGradSampleOne exSqrt exTripleSame3
    1 5 2 1 7 exStoreZero exDraws false exStoreZero
    (monteCarloEval_run exGradSampleOne exSqrt exTripleSame3 1 2 1
      exStoreZero exDraws exDraws_length exDraws_accepted)

/-- Claim C5: if any pairwise minimum squared distance between two of
the three region bounds is exactly zero, or any of the twelve gradient
bounds is NaN or infinite, the deterministic tree-node `Eval` returns
`false` (no error is raised: the embedding is total). -/
theorem eval_nodes_refuses_degenerate (dmin dmax : ℕ → ℕ → ℚ)
    (grad : DistMat → GradOut) (t : NodeTriple) (σ : Store) (r T : ℚ)
    (h : (evalMinMaxSquaredDistancesNodes dmin dmax t).m01 = 0 ∨
         (evalMinMaxSquaredDistancesNodes dmin dmax t).m02 = 0 ∨
         (evalMinMaxSquaredDistancesNodes dmin dmax t).m12 = 0 ∨
         (grad (evalMinMaxSquaredDistancesNodes dmin dmax t)).hasNonFinite =
           true) :
    (evalNodes dmin dmax grad t σ r T).1 = false := by
  simp only [evalNodes]
  split_ifs with h1 h2 h3
  · rfl
  · rfl
  · rcases h with h | h | h | h
    · exact absurd (Or.inl h) h1
    · exact absurd (Or.inr (Or.inl h)) h1
    · exact absurd (Or.inr (Or.inr h)) h1
    · exact absurd h h2
  · rfl

/-- Witness for C5: a degenerate triple with a zero minimum distance. -/
theorem eval_nodes_refuses_degenerate_witness :
    (evalNodes exDistZero exDistOne exGradZero exTripleSame1 exStoreZero
      1 1).1 = false :=
  eval_nodes_refuses_degenerate exDistZero exDistOne exGradZero
    exTripleSame1 exStoreZero 1 1 (Or.inl rfl)

/-- Claim C10: if the deterministic tree-node `Eval` returns `false`
the statistics store is unchanged; region statistics are mutated only
through `Prune_` on the returns-true branch (the transient distance
table is modelled as a pure local value). -/
theorem eval_nodes_false_preserves_stats (dmin dmax : ℕ → ℕ → ℚ)
    (grad : DistMat → GradOut) (t : NodeTriple) (σ : Store) (r T : ℚ)
    (b : Bool) (σ' : Store)
    (h : evalNodes dmin dmax grad t σ r T = (b, σ')) :
    (b = false → σ' = σ) ∧
    (b = true → ∃ g1 g2 g3 : GradBounds,
      σ' = PruneNodes t g1 g2 g3 (evalPairCounts t).num_jk_pairs
        (evalPairCounts t).num_ik_pairs (evalPairCounts t).num_ij_pairs σ) := by
  simp only [evalNodes] at h
  split_ifs at h
  · injection h with hb hσ
    subst hb
    subst hσ
    exact ⟨fun _ => rfl, fun hc => absurd hc (by simp)⟩
  · injection h with hb hσ
    subst hb
    subst hσ
    exact ⟨fun _ => rfl, fun hc => absurd hc (by simp)⟩
  · injection h with hb hσ
    subst hb
    subst hσ
    exact ⟨fun hc => absurd hc (by simp), fun _ => ⟨_, _, _, rfl⟩⟩
  · injection h with hb hσ
    subst hb
    subst hσ
    exact ⟨fun _ => rfl, fun hc => absurd hc (by simp)⟩

/-- Witness for C10: a refused (degenerate) triple leaves the store
untouched. -/
theorem eval_nodes_false_preserves_stats_witness :
    exStoreZero = exStoreZero :=
  (eval_nodes_false_preserves_stats exDistZero exDistOne exGradZero
    exTripleSame1 exStoreZero 1 1 false exStoreZero
    (by simp [evalNodes, evalMinMaxSquaredDistancesNodes, exDistZero])).1 rfl

/-- Claim C8: on a successful prune, `Prune_` mutates only the
statistics records of the three regions occupying the triple's slots
(every other node id maps to its old record), and the final store does
not depend on the order in which the three slots' updates are applied:
all six orderings of the slot updates produce `Prune_`'s result. -/
theorem prune_frame_and_order_independent (t : NodeTriple)
    (g1 g2 g3 : GradBounds) (njk nik nij : ℚ) (σ : Store) :
    (∀ n, n ≠ t.n0.id → n ≠ t.n1.id → n ≠ t.n2.id →
      PruneNodes t g1 g2 g3 njk nik nij σ n = σ n) ∧
    pruneSlot0 t g1 g2 njk (pruneSlot1 t g1 g3 nik (pruneSlot2 t g2 g3 nij σ)) =
      PruneNodes t g1 g2 g3 njk nik nij σ ∧
    pruneSlot0 t g1 g2 njk (pruneSlot2 t g2 g3 nij (pruneSlot1 t g1 g3 nik σ)) =
      PruneNodes t g1 g2 g3 njk nik nij σ ∧
    pruneSlot1 t g1 g3 nik (pruneSlot0 t g1 g2 njk (pruneSlot2 t g2 g3 nij σ)) =
      PruneNodes t g1 g2 g3 njk nik nij σ ∧
    pruneSlot1 t g1 g3 nik (pruneSlot2 t g2 g3 nij (pruneSlot0 t g1 g2 njk σ)) =
      PruneNodes t g1 g2 g3 njk nik nij σ ∧
    pruneSlot2 t g2 g3 nij (pruneSlot0 t g1 g2 njk (pruneSlot1 t g1 g3 nik σ)) =
      PruneNodes t g1 g2 g3 njk nik nij σ := by
  refine ⟨fun n h0 h1 h2 =>
    pruneNodes_frame t g1 g2 g3 njk nik nij σ n h0 h1 h2,
    ?_, ?_, ?_, ?_, ?_⟩ <;>
    simp only [PruneNodes, ← slot01_comm, ← slot02_comm, ← slot12_comm]

/-- Witness for C8: the statistics of an unrelated node id are
untouched by a concrete prune. -/
theorem prune_frame_witness :
    PruneNodes exTripleSame1 exGB exGB exGB 1 1 1 exStoreZero 5 =
      exStoreZero 5 :=
  (prune_frame_and_order_independent exTripleSame1 exGB exGB exGB 1 1 1
    exStoreZero).1 5 (by decide) (by decide) (by decide)
